import Mathlib

/-!
Verification of the Escoffier scenario-orchestration core.

The definitions below are a shallow embedding of the Python sources:
  - src/escoffier_types.py      (status enumerations)
  - src/database/models.py      (KitchenLocation)
  - src/kitchen/engine.py       (stations, environment, crisis handling)
  - src/scenarios/executor.py   (batch scheduling, scores)

Python floats are modelled as exact rationals (ℚ), Python sets of agent
ids as `Finset ℕ`, the station dictionary as a function
`KitchenLocation → Option KitchenStation` (lookups through `.get`), and
random draws as injected parameters.
-/

namespace Escoffier

/-- Task status taxonomy from src/escoffier_types.py (TaskStatus, lines 64-70).
Note: the enumeration has no timed-out member. -/
inductive TaskStatus
  | assigned
  | in_progress
  | completed
  | failed
  | cancelled
deriving DecidableEq, Repr

/-- Scenario execution status from src/escoffier_types.py (ScenarioStatus). -/
inductive ScenarioStatus
  | pending
  | running
  | completed
  | failed
  | cancelled
deriving DecidableEq, Repr

/-- Overall kitchen operation states from src/kitchen/engine.py (KitchenState). -/
inductive KitchenState
  | idle
  | prep
  | service
  | rush
  | crisis
  | cleanup
deriving DecidableEq, Repr

/-- Kitchen locations from src/database/models.py (KitchenLocation). -/
inductive KitchenLocation
  | stock
  | prep
  | grill
  | saute
  | baking
  | expedite
  | dish
  | cold_prep
deriving DecidableEq, Fintype, Repr

/-- The fixed enumeration order of all kitchen locations. -/
def KitchenLocation.all : List KitchenLocation :=
  [.stock, .prep, .grill, .saute, .baking, .expedite, .dish, .cold_prep]

/-- Kitchen equipment with state and availability (engine.py, Equipment). -/
structure Equipment where
  name : String
  location : KitchenLocation
  is_available : Bool := true
  condition : ℚ := 1
  temperature : Option ℚ := none
  in_use_by : Option ℕ := none
  maintenance_required : Bool := false
deriving DecidableEq, Repr

/-- A kitchen workstation with equipment and capacity (engine.py, KitchenStation). -/
structure KitchenStation where
  name : String
  location : KitchenLocation
  equipment : List Equipment := []
  max_capacity : ℕ := 2
  current_agents : Finset ℕ := ∅
  cleanliness : ℚ := 1
  temperature : ℚ := 20
deriving DecidableEq

/-- engine.py `KitchenStation.is_full`: `len(self.current_agents) >= self.max_capacity`. -/
def KitchenStation.isFull (st : KitchenStation) : Bool :=
  decide (st.max_capacity ≤ st.current_agents.card)

/-- Kitchen environmental conditions (engine.py, EnvironmentalConditions). -/
structure EnvironmentalConditions where
  temperature : ℚ := 22
  humidity : ℚ := 60
  noise_level : ℚ := 1/2
  rush_multiplier : ℚ := 1
  time_pressure : ℚ := 0
  crisis_active : Bool := false
  crisis_type : Option String := none
deriving DecidableEq, Repr

/-- The station dictionary `self.stations`: keys are locations, absent keys
(`.get` misses) are `none`. -/
abbrev Stations := KitchenLocation → Option KitchenStation

/-- Python truthiness of an `Optional[int]`: `None` and `0` are falsy.
Used for the `if equipment.in_use_by` tests in engine.py. -/
def optTruthy : Option ℕ → Bool
  | none => false
  | some n => n != 0

/-- Substring test on character lists: Python's `pat in s`. -/
def subOfChars (pat s : List Char) : Bool :=
  (List.range (s.length + 1)).any fun i => pat.isPrefixOf (s.drop i)

/-- Python's substring containment `pat in s` on strings. -/
def strContainsSub (s pat : String) : Bool :=
  subOfChars pat.toList s.toList

/-- Per-location occupant count contribution to
`sum(len(station.current_agents) for station in self.stations.values())`. -/
def locAgents (s : Stations) (l : KitchenLocation) : ℕ :=
  Option.elim (s l) 0 fun st => st.current_agents.card

/-- `total_agents` in engine.py `_update_environment`. -/
def totalAgents (s : Stations) : ℕ :=
  (KitchenLocation.all.map (locAgents s)).sum

/-- The generator predicate for `active_heat_sources`:
`equipment.in_use_by and ("oven" in equipment.name or "grill" in equipment.name)`. -/
def isHeatSource (e : Equipment) : Bool :=
  optTruthy e.in_use_by && (strContainsSub e.name "oven" || strContainsSub e.name "grill")

/-- The generator predicate for `steam_sources`:
`equipment.in_use_by and ("burner" in equipment.name or "pot" in equipment.name)`. -/
def isSteamSource (e : Equipment) : Bool :=
  optTruthy e.in_use_by && (strContainsSub e.name "burner" || strContainsSub e.name "pot")

/-- Per-location heat-source count. -/
def locHeat (s : Stations) (l : KitchenLocation) : ℕ :=
  Option.elim (s l) 0 fun st => st.equipment.countP isHeatSource

/-- `active_heat_sources` in engine.py `_update_environment`. -/
def activeHeatSources (s : Stations) : ℕ :=
  (KitchenLocation.all.map (locHeat s)).sum

/-- Per-location steam-source count. -/
def locSteam (s : Stations) (l : KitchenLocation) : ℕ :=
  Option.elim (s l) 0 fun st => st.equipment.countP isSteamSource

/-- `steam_sources` in engine.py `_update_environment`. -/
def steamSources (s : Stations) : ℕ :=
  (KitchenLocation.all.map (locSteam s)).sum

/-- engine.py `_update_environment` (lines 226-261): recomputes temperature,
humidity and noise from occupancy, sets the operating mode as a step function
of the total occupant count, and sets the rush multiplier in the rush branch
only.  Returns the new kitchen state and conditions. -/
def updateEnvironment (s : Stations) (c : EnvironmentalConditions) :
    KitchenState × EnvironmentalConditions :=
  let heat := activeHeatSources s
  let temp := min 35 (22 + (heat : ℚ) * 2)
  let steam := steamSources s
  let hum := min 80 (60 + (steam : ℚ) * 3)
  let n := totalAgents s
  let noise := min 1 ((n : ℚ) * (1/10))
  let c1 : EnvironmentalConditions :=
    { c with temperature := temp, humidity := hum, noise_level := noise }
  if n = 0 then (KitchenState.idle, c1)
  else if n ≤ 3 then (KitchenState.prep, c1)
  else if n ≤ 6 then (KitchenState.service, c1)
  else (KitchenState.rush, { c1 with rush_multiplier := 1 + ((n : ℚ) - 6) * (2/10) })

/-- The agent fields read and written by engine.py `_move_agent_to_station`:
the database agent's id and `current_location`. -/
structure AgentLoc where
  id : ℕ
  current_location : Option KitchenLocation
deriving DecidableEq, Repr

/-- First half of `_move_agent_to_station` (engine.py lines 317-321): if the
agent has a current location whose station exists and contains the agent,
remove the agent from that station's occupant set. -/
def removeFromCurrent (s : Stations) (a : AgentLoc) : Stations :=
  Option.elim a.current_location s fun loc =>
    Option.elim (s loc) s fun cur =>
      if a.id ∈ cur.current_agents then
        fun l => if l = loc then
          some { cur with current_agents := cur.current_agents.erase a.id }
        else s l
      else s

/-- engine.py `_move_agent_to_station` (lines 315-338): remove the agent from
its current station, then add it to the target station only when that station
exists and is not full, updating the agent's recorded location only in that
case. -/
def moveAgentToStation (s : Stations) (a : AgentLoc) (target : KitchenLocation) :
    Stations × AgentLoc :=
  Option.elim (removeFromCurrent s a target) (removeFromCurrent s a, a) fun tgt =>
    if tgt.isFull then (removeFromCurrent s a, a)
    else
      (fun l => if l = target then
          some { tgt with current_agents := insert a.id tgt.current_agents }
        else removeFromCurrent s a l,
       { a with current_location := some target })

/-- Equipment temperature re-randomization rule shared by
`_initialize_equipment` and `reset_kitchen`: only oven/grill/refrigeration
equipment gets a (randomly drawn, here injected) temperature. -/
def initEquipTemp (name : String) (r : ℚ) (old : Option ℚ) : Option ℚ :=
  if strContainsSub name "oven" then some r
  else if strContainsSub name "grill" then some r
  else if strContainsSub name "refriger" then some r
  else old

/-- engine.py `reset_kitchen` restricted to station/equipment state: clears
occupants, restores cleanliness and temperature, and resets every piece of
equipment (random draws injected through `newCond` and `newTemp`). -/
def resetKitchenStations (s : Stations) (newCond newTemp : KitchenLocation → ℕ → ℚ) :
    Stations := fun l =>
  (s l).map fun st =>
    { st with
      current_agents := ∅
      cleanliness := 1
      temperature := 20
      equipment := st.equipment.enum.map fun ie =>
        { ie.2 with
          is_available := true
          condition := newCond l ie.1
          in_use_by := none
          maintenance_required := false
          temperature := initEquipTemp ie.2.name (newTemp l ie.1) ie.2.temperature } }

/-- The per-location configuration table of `_initialize_stations`
(engine.py lines 112-150): display name, capacity, equipment names.  The
stock location has no station. -/
def stationConfig : KitchenLocation → Option (String × ℕ × List String)
  | .prep => some ("Prep Station", 3, ["cutting_board", "prep_knives", "food_processor"])
  | .grill => some ("Grill Station", 2, ["gas_grill", "grill_tools", "thermometer"])
  | .saute => some ("Sauté Station", 2, ["gas_burners", "saute_pans", "sauce_pots"])
  | .baking => some ("Baking Station", 2, ["convection_oven", "mixers", "baking_tools"])
  | .cold_prep => some ("Cold Prep", 2, ["refrigeration", "salad_station", "cold_tools"])
  | .expedite => some ("Expedite Station", 1, ["heat_lamps", "plating_station", "garnish_station"])
  | .dish => some ("Dish Station", 2, ["dishwasher", "sanitizer", "drying_racks"])
  | .stock => none

/-- engine.py `_initialize_stations` followed by `_initialize_equipment`:
builds the initial station dictionary with empty occupant sets (random
condition and temperature draws injected through `cond` and `etemp`). -/
def initialStations (cond etemp : KitchenLocation → ℕ → ℚ) : Stations := fun l =>
  (stationConfig l).map fun cfg =>
    { name := cfg.1
      location := l
      max_capacity := cfg.2.1
      equipment := cfg.2.2.enum.map fun ie =>
        { name := ie.2
          location := l
          is_available := true
          condition := cond l ie.1
          temperature := initEquipTemp ie.2 (etemp l ie.1) none
          in_use_by := none
          maintenance_required := false }
      current_agents := ∅
      cleanliness := 1
      temperature := 20 }

/-- The capacity bound for one optional station. -/
def stationOK : Option KitchenStation → Prop
  | none => True
  | some st => st.current_agents.card ≤ st.max_capacity

instance : DecidablePred stationOK := fun o => by
  cases o with
  | none => exact isTrue trivial
  | some st => exact inferInstanceAs (Decidable (_ ≤ _))

/-- Capacity invariant: every station's occupant count is at most its
capacity. -/
def capacityOK (s : Stations) : Prop := ∀ l : KitchenLocation, stationOK (s l)

instance (s : Stations) : Decidable (capacityOK s) :=
  inferInstanceAs (Decidable (∀ _, _))

/-- The operations of the engine that touch station occupant sets: agent
movement and the scenario reset. -/
inductive KitchenOp
  | move (agent : AgentLoc) (target : KitchenLocation)
  | reset (newCond newTemp : KitchenLocation → ℕ → ℚ)

/-- Apply one occupancy-mutating engine operation. -/
def applyOp (s : Stations) : KitchenOp → Stations
  | .move a t => (moveAgentToStation s a t).1
  | .reset c tp => resetKitchenStations s c tp

/-- The fixed crisis catalogue of engine.py `_handle_crisis_events`. -/
def crisisCatalogue : List String :=
  ["equipment_failure", "ingredient_shortage", "large_order", "staff_injury",
   "food_safety_issue"]

/-- engine.py `_handle_crisis_events` (lines 358-391) restricted to the
conditions fields it mutates.  `resolveRoll` stands for
`random.random() < 0.1`, `triggerRoll` for `random.random() < 0.005`, and
`choice` for `random.choice(crisis_types)`. -/
def handleCrisisEvents (st : KitchenState) (c : EnvironmentalConditions)
    (resolveRoll triggerRoll : Bool) (choice : Fin 5) : EnvironmentalConditions :=
  if c.crisis_active then
    if resolveRoll then { c with crisis_active := false, crisis_type := none }
    else c
  else if (st = KitchenState.service ∨ st = KitchenState.rush) ∧ triggerRoll = true then
    { c with crisis_active := true
             crisis_type := some (crisisCatalogue.get (Fin.cast (by rfl) choice)) }
  else c

/-- The behaviour of one task's actor call in executor.py
`_execute_tasks_parallel`, as seen by the batch machinery: the coroutine
resolves successfully, resolves with a raised exception, or is still
unresolved when the 30-second batch timeout fires. -/
inductive TaskBehavior
  | succeeds
  | raises
  | stalls
deriving DecidableEq, Repr

/-- Fuel-based worker for `chunksOf`; the fuel is an upper bound on the list
length, so it never runs out on the intended call. -/
def chunksOfAux (n : ℕ) : ℕ → List α → List (List α)
  | 0, _ => []
  | _, [] => []
  | fuel + 1, x :: xs => (x :: xs.take (n - 1)) :: chunksOfAux n fuel (xs.drop (n - 1))

/-- The batching loop `for i in range(0, len(tasks), max_concurrent):
batch = tasks[i:i + max_concurrent]` of `_execute_tasks_parallel`, for a
positive step. -/
def chunksOf (n : ℕ) (l : List α) : List (List α) :=
  chunksOfAux n l.length l

/-- The tally one batch contributes to `(total_completed, total_failed)` in
`_execute_tasks_parallel` (lines 618-653): when no task stalls, the gather
resolves and exceptions are counted failed, the rest completed.  When some
task stalls, `asyncio.wait_for` cancels the gather and (since Python 3.7)
awaits the cancellation before raising `TimeoutError`, so by the time the
handler at lines 644-649 runs every future is already done: the
`future.cancel()` loop is a no-op and `total_failed` is incremented by the
number of not-done futures, which is zero — a timed-out group contributes
nothing to either counter. -/
def batchTally (batch : List TaskBehavior) : ℕ × ℕ :=
  if batch.any fun t => t = TaskBehavior.stalls then
    (0, 0)
  else
    (batch.countP fun t => t = TaskBehavior.succeeds,
     batch.countP fun t => t = TaskBehavior.raises)

/-- Per-agent `tasks_completed` bookkeeping of `_execute_single_task`: agent
`j` (round-robin position inside each batch, `task_idx % len(agents)`)
completes every task assigned to it whose actor call succeeds. -/
def agentCompletedCount (numAgents j : ℕ) (batches : List (List TaskBehavior)) : ℕ :=
  (batches.map fun b =>
    b.enum.countP fun p => p.2 = TaskBehavior.succeeds ∧ p.1 % numAgents = j).sum

/-- executor.py `_execute_tasks_parallel` (lines 573-669) as a function from
the agent-pool size and the per-task actor behaviours to the increments this
call applies to `(result.tasks_completed, result.tasks_failed)`.  The final
summary loop (lines 662-669) adds one extra completed task per agent whose
per-agent completed counter is positive. -/
def executeTasksParallel (numAgents : ℕ) (tasks : List TaskBehavior) : ℕ × ℕ :=
  if numAgents = 0 then (0, 0)
  else
    let mc := min numAgents 4
    let batches := chunksOf mc tasks
    let completed := (batches.map fun b => (batchTally b).1).sum
    let failed := (batches.map fun b => (batchTally b).2).sum
    let bonus := ((List.range numAgents).filter fun j =>
      0 < agentCompletedCount numAgents j batches).length
    (completed + bonus, failed)

/-- The per-recipe quality computation of `_execute_service_phase`
(executor.py lines 480-492): base quality 0.8, minus
`(tasks_failed / max(1, tasks_completed)) * 0.3` when any task failed, minus
`(time_pressure - 1.0) * 0.2` when time pressure exceeds 1, clamped to
[0, 1]. -/
def serviceQuality (tasks_completed tasks_failed : ℕ) (time_pressure : ℚ) : ℚ :=
  let base : ℚ := 8/10
  let base := if 0 < tasks_failed then
      base - ((tasks_failed : ℚ) / max 1 (tasks_completed : ℚ)) * (3/10)
    else base
  let base := if 1 < time_pressure then base - (time_pressure - 1) * (2/10) else base
  max 0 (min 1 base)

/-- executor.py `_execute_service_phase` (lines 475-496): one identical
quality score per configured recipe, averaged; 0 when there are no
recipes. -/
def executeServicePhase (recipes : List String) (tasks_completed tasks_failed : ℕ)
    (time_pressure : ℚ) : ℚ :=
  let scores := recipes.map fun _ => serviceQuality tasks_completed tasks_failed time_pressure
  if scores.isEmpty then 0 else scores.sum / (scores.length : ℚ)

/-- Modelled from the spec's words for comparison (claim C3): base quality
minus a penalty proportional to `failed/(completed+failed)` and a penalty
proportional to `max(0, time_pressure-1)`, clamped to [0, 1]. -/
def serviceQualitySpec (completed failed : ℕ) (time_pressure : ℚ) : ℚ :=
  max 0 (min 1 (8/10 - ((failed : ℚ) / ((completed : ℚ) + (failed : ℚ))) * (3/10)
    - max 0 (time_pressure - 1) * (2/10)))

/-- executor.py `_calculate_final_scores` (lines 987-1008): efficiency from
task counts, collaboration from the communication count against the
`agent_count * (agent_count - 1) * 2` baseline, with the single-agent (and
empty) convention of 1.0.  Returns `(efficiency, collaboration)`. -/
def calculateFinalScores (tasks_completed tasks_failed communications agent_count : ℕ) :
    ℚ × ℚ :=
  let total_tasks := tasks_completed + tasks_failed
  let efficiency : ℚ := if 0 < total_tasks then (tasks_completed : ℚ) / (total_tasks : ℚ) else 0
  let collaboration : ℚ :=
    if 1 < agent_count then
      min 1 ((communications : ℚ) / ((agent_count * (agent_count - 1) * 2 : ℕ) : ℚ))
    else 1
  (efficiency, collaboration)

/-- The outcome of one phase body as seen by `execute_scenario`: either the
phase returns, or it raises an exception (re-raised by `_execute_phase`). -/
abbrev PhaseOutcome := Except String Unit

/-- The phase loop of `execute_scenario` (executor.py lines 238-246): phases
run strictly in order and the first raised exception aborts the loop.  Phase
bodies never assign `result.status`, so the early-termination check on
FAILED/CANCELLED never fires before an exception does. -/
def runPhasesLoop : List PhaseOutcome → Except String Unit
  | [] => Except.ok ()
  | p :: ps =>
    match p with
    | Except.ok _ => runPhasesLoop ps
    | Except.error e => Except.error e

/-- executor.py `execute_scenario` (lines 198-287): status starts RUNNING; if
every phase returns, the still-RUNNING status is finalized to COMPLETED; any
exception is caught by the top-level handler, which sets FAILED.  The
function always returns a result, never propagates the exception. -/
def executeScenario (phases : List PhaseOutcome) : ScenarioStatus :=
  match runPhasesLoop phases with
  | Except.ok _ => ScenarioStatus.completed
  | Except.error _ => ScenarioStatus.failed

/-! Lemmas about the batching machinery. -/

lemma chunksOfAux_join (n : ℕ) :
    ∀ (fuel : ℕ) (l : List α), l.length ≤ fuel → (chunksOfAux n fuel l).flatten = l := by
  intro fuel
  induction fuel with
  | zero =>
    intro l h
    cases l with
    | nil => rfl
    | cons x xs => simp at h
  | succ fuel ih =>
    intro l h
    cases l with
    | nil => rfl
    | cons x xs =>
      simp only [chunksOfAux, List.flatten]
      rw [ih (xs.drop (n - 1)) ?_]
      · simp [List.take_append_drop]
      · simp only [List.length_cons] at h
        calc (xs.drop (n - 1)).length ≤ xs.length := by
              simp [List.length_drop]
          _ ≤ fuel := Nat.lt_succ_iff.mp (Nat.lt_of_lt_of_le (Nat.lt_succ_self _) h)

/-- The batch groups partition the task list. -/
lemma chunksOf_join (n : ℕ) (l : List α) : (chunksOf n l).flatten = l :=
  chunksOfAux_join n l.length l le_rfl

/-- One batch's failed tally never exceeds its number of raising tasks: a
timed-out group contributes no failures at all. -/
lemma batchTally_failed_le_raises (b : List TaskBehavior) :
    (batchTally b).2 ≤ b.countP fun t => t = TaskBehavior.raises := by
  unfold batchTally
  by_cases h : b.any fun t => t = TaskBehavior.stalls
  · simp [h]
  · simp [h]

/-!
Claim C1.  The claim states that a task whose actor call has not resolved
when the per-batch timeout fires is recorded in the batch outcome with a
terminal state `timed_out`.  No such record exists: the `TaskStatus`
enumeration of src/escoffier_types.py has no timed-out member, and in the
`asyncio.TimeoutError` handler (executor.py lines 644-649) every future is
already done — `asyncio.wait_for` awaited the gather's cancellation before
raising — so the handler increments `total_failed` by zero and the batch
contributes nothing to either counter: the unresolved task is dropped from
the tallies, recorded nowhere.
-/

/-- C1 counterexample: a batch consisting of one task that never resolves
within the timeout yields the outcome `(0 completed, 0 failed)` — the
unresolved task is recorded nowhere, there being no timed-out tally or
status at all, contradicting the claim that it is recorded with terminal
state `timed_out`. -/
theorem timeout_status_counterexample :
    executeTasksParallel 1 [TaskBehavior.stalls] = (0, 0) := by decide

/-- C1 amended: a task whose actor call has not resolved when the per-batch
timeout fires is cancelled and counted neither as failed nor as completed —
its group contributes nothing to either tally (there is no timed-out state
in the TaskStatus taxonomy), and across a run the failed tally never exceeds
the number of tasks whose actor call raised. -/
theorem unresolved_tasks_dropped_from_tallies (numAgents : ℕ)
    (tasks : List TaskBehavior) (h : 0 < numAgents) :
    (executeTasksParallel numAgents tasks).2 ≤
      (tasks.countP fun t => t = TaskBehavior.raises) ∧
    ∀ b ∈ chunksOf (min numAgents 4) tasks,
      (b.any fun t => t = TaskBehavior.stalls) = true → batchTally b = (0, 0) := by
  constructor
  · unfold executeTasksParallel
    rw [if_neg (Nat.pos_iff_ne_zero.mp h)]
    have hjoin := chunksOf_join (min numAgents 4) tasks
    calc ((chunksOf (min numAgents 4) tasks).map fun b => (batchTally b).2).sum
        ≤ ((chunksOf (min numAgents 4) tasks).map
            (List.countP fun t => decide (t = TaskBehavior.raises))).sum := by
          apply List.sum_le_sum
          intro b hb
          exact batchTally_failed_le_raises b
      _ = (((chunksOf (min numAgents 4) tasks).flatten).countP
            fun t => t = TaskBehavior.raises) := by rw [List.countP_flatten]
      _ = tasks.countP fun t => t = TaskBehavior.raises := by rw [hjoin]
  · intro b hb hstall
    unfold batchTally
    rw [if_pos hstall]

/-- C1 amended, witness: the spec's concrete scenario — a batch of three
tasks on three agents where one actor call stalls — has a failed tally
bounded by its (zero) raising tasks, and the timed-out group contributes
nothing to either counter. -/
theorem unresolved_tasks_dropped_witness :
    0 < 3 ∧
    (executeTasksParallel 3
        [TaskBehavior.stalls, TaskBehavior.succeeds, TaskBehavior.succeeds]).2 ≤
      ([TaskBehavior.stalls, TaskBehavior.succeeds, TaskBehavior.succeeds].countP
        fun t => t = TaskBehavior.raises) ∧
    batchTally [TaskBehavior.stalls, TaskBehavior.succeeds, TaskBehavior.succeeds] =
      (0, 0) := by
  have h := unresolved_tasks_dropped_from_tallies 3
    [TaskBehavior.stalls, TaskBehavior.succeeds, TaskBehavior.succeeds] (by decide)
  exact ⟨by decide, h.1, h.2 _ (by decide) (by decide)⟩

/-!
Claim C2.  For N tasks of which exactly one always raises, the claim (and
the spec's batch-isolation property) expects exactly N-1 completed and 1
failed.  The batch loop indeed tallies N-1 completed and 1 failed, and the
failure does not disturb sibling tasks (`asyncio.gather` with
`return_exceptions=True`); but the "agent performance summary" loop at
executor.py lines 662-669 then increments `result.tasks_completed` once more
for every agent whose per-agent completed counter is positive, inflating the
reported completed count.  The code contradicts its own log message
(line 659), which reports the un-inflated totals: this is a slip in the
code, not in the claim.
-/

/-- C2: evaluating the embedded batch executor at the failing input — two
tasks, the first of which raises, on a pool of one agent — reports 2
completed and 1 failed, instead of the N-1 = 1 completed and 1 failed that
the claim (and the code's own completion log line) specifies. -/
theorem batch_count_inflated_bug :
    executeTasksParallel 1 [TaskBehavior.raises, TaskBehavior.succeeds] = (2, 1) := by decide

/-!
Claim C3.  The claim states the SERVICE-phase quality penalty is
proportional to `failed / (completed + failed)`; the code
(executor.py line 486) divides by `max(1, tasks_completed)` instead.
-/

/-- Auxiliary: summing a constant over a list. -/
lemma sum_map_const_rat (l : List String) (q : ℚ) :
    (l.map fun _ => q).sum = (l.length : ℚ) * q := by
  induction l with
  | nil => simp
  | cons x xs ih =>
    simp [ih]
    ring

/-- With at least one recipe, the SERVICE phase quality score is the
per-recipe quality (the average of identical values). -/
lemma executeServicePhase_eq (recipes : List String) (h : recipes ≠ []) (tc tf : ℕ)
    (tp : ℚ) :
    executeServicePhase recipes tc tf tp = serviceQuality tc tf tp := by
  unfold executeServicePhase
  have hmap : ¬ (recipes.map fun _ => serviceQuality tc tf tp).isEmpty = true := by
    simp [List.isEmpty_iff, h]
  rw [if_neg hmap, sum_map_const_rat]
  have hlen : ((recipes.length : ℚ)) ≠ 0 := by
    simp [h]
  rw [List.length_map]
  exact mul_div_cancel_left₀ _ hlen

/-- Closed form of the per-recipe quality computation. -/
lemma serviceQuality_eq (tc tf : ℕ) (tp : ℚ) :
    serviceQuality tc tf tp =
      max 0 (min 1 (8/10 - ((tf : ℚ) / max 1 (tc : ℚ)) * (3/10) - max 0 (tp - 1) * (2/10))) := by
  unfold serviceQuality
  by_cases h1 : 0 < tf
  · by_cases h2 : 1 < tp
    · simp only [if_pos h1, if_pos h2, max_eq_right (by linarith : (0:ℚ) ≤ tp - 1)]
    · simp only [if_pos h1, if_neg h2,
        max_eq_left (by push_neg at h2; linarith : tp - 1 ≤ (0:ℚ))]
      ring_nf
  · have htf : tf = 0 := by omega
    subst htf
    by_cases h2 : 1 < tp
    · simp only [if_neg h1, if_pos h2, max_eq_right (by linarith : (0:ℚ) ≤ tp - 1)]
      norm_num
    · simp only [if_neg h1, if_neg h2,
        max_eq_left (by push_neg at h2; linarith : tp - 1 ≤ (0:ℚ))]
      norm_num

/-- C3 counterexample: with one recipe, 1 completed task, 1 failed task and
time pressure 1, the SERVICE phase computes quality 0.5 (penalty divided by
`max(1, completed)`), while the claimed formula with denominator
`completed + failed` gives 0.65. -/
theorem service_quality_denominator_counterexample :
    executeServicePhase ["r1"] 1 1 1 ≠ serviceQualitySpec 1 1 1 := by
  have h1 : executeServicePhase ["r1"] 1 1 1 = 1/2 := by
    simp [executeServicePhase, serviceQuality]
    norm_num [max_def, min_def]
  have h2 : serviceQualitySpec 1 1 1 = 13/20 := by
    simp [serviceQualitySpec]
    norm_num [max_def, min_def]
  rw [h1, h2]
  norm_num

/-- C3 amended: for every combination of completed count, failed count and
configured time pressure (and a non-empty recipe list), the SERVICE phase
computes the quality score as the base quality 0.8 minus a penalty
proportional to `failed / max(1, completed)` and a penalty proportional to
`max(0, time_pressure - 1)`, clamped to [0, 1]. -/
theorem service_quality_closed_form (recipes : List String) (h : recipes ≠ [])
    (tc tf : ℕ) (tp : ℚ) :
    executeServicePhase recipes tc tf tp =
      max 0 (min 1 (8/10 - ((tf : ℚ) / max 1 (tc : ℚ)) * (3/10)
        - max 0 (tp - 1) * (2/10))) := by
  rw [executeServicePhase_eq recipes h, serviceQuality_eq]

/-- C3 amended, witness: the closed form holds at one recipe, 1 completed,
1 failed, time pressure 1. -/
theorem service_quality_closed_form_witness :
    ["r1"] ≠ ([] : List String) ∧
    executeServicePhase ["r1"] 1 1 1 =
      max 0 (min 1 (8/10 - ((1 : ℚ) / max 1 (1 : ℚ)) * (3/10) - max 0 ((1:ℚ) - 1) * (2/10))) :=
  ⟨by decide, by
    have h := service_quality_closed_form ["r1"] (by decide) 1 1 1
    simpa using h⟩

/-!
Claim C4.  `execute_scenario` wraps the phase loop in a try/except whose
handler sets FAILED, and finalizes a still-RUNNING status to COMPLETED; the
returned status is always terminal and no exception escapes.
-/

/-- C4: for every behaviour of the six phase bodies — each may return or
raise — the scenario runner returns (never propagates an exception) and the
returned status is terminal: completed, failed or cancelled, never
running. -/
theorem scenario_status_terminal (phases : List PhaseOutcome) :
    executeScenario phases ≠ ScenarioStatus.running ∧
    (executeScenario phases = ScenarioStatus.completed ∨
     executeScenario phases = ScenarioStatus.failed ∨
     executeScenario phases = ScenarioStatus.cancelled) := by
  unfold executeScenario
  cases runPhasesLoop phases <;> simp

/-!
Claim C10.  `_calculate_final_scores` with an empty per-actor performance
map takes the `else` branch of the collaboration computation (1.0, the same
branch as a single-actor run), and the efficiency score is 0.0 when no task
completed and none failed.
-/

/-- C10: finalizing scores for a run with zero actors sets the collaboration
score to exactly 1, the same value as a single-actor run, and the efficiency
score to 0 when no tasks completed and none failed. -/
theorem final_scores_zero_agents (tc tf comms : ℕ) :
    (calculateFinalScores tc tf comms 0).2 = 1 ∧
    (calculateFinalScores tc tf comms 0).2 = (calculateFinalScores tc tf comms 1).2 ∧
    (tc = 0 → tf = 0 → (calculateFinalScores tc tf comms 0).1 = 0) := by
  refine ⟨by simp [calculateFinalScores], by simp [calculateFinalScores], ?_⟩
  intro h1 h2
  subst h1; subst h2
  simp [calculateFinalScores]

/-- C10 witness: at zero actors, zero completed, zero failed and five
recorded communications, the collaboration score is 1 (matching the
single-actor value) and the efficiency score is 0. -/
theorem final_scores_zero_agents_witness :
    (calculateFinalScores 0 0 5 0).2 = 1 ∧
    (calculateFinalScores 0 0 5 0).2 = (calculateFinalScores 0 0 5 1).2 ∧
    (calculateFinalScores 0 0 5 0).1 = 0 :=
  ⟨(final_scores_zero_agents 0 0 5).1, (final_scores_zero_agents 0 0 5).2.1,
   (final_scores_zero_agents 0 0 5).2.2 rfl rfl⟩

/-! Lemmas about station occupancy. -/

/-- The initial station dictionary satisfies the capacity invariant: all
occupant sets start empty. -/
lemma capacityOK_initialStations (cond etemp : KitchenLocation → ℕ → ℚ) :
    capacityOK (initialStations cond etemp) := by
  intro l
  cases l <;> simp [initialStations, stationConfig, stationOK]

/-- The one interesting case of agent removal: the pointwise description of
the updated station function. -/
lemma removeFromCurrent_apply (s : Stations) (a : AgentLoc) (loc : KitchenLocation)
    (cur : KitchenStation) (hloc : a.current_location = some loc)
    (hs : s loc = some cur) (hmem : a.id ∈ cur.current_agents) (l : KitchenLocation) :
    removeFromCurrent s a l =
      if l = loc then
        some { cur with current_agents := cur.current_agents.erase a.id }
      else s l := by
  unfold removeFromCurrent
  rw [hloc, Option.elim_some, hs, Option.elim_some, if_pos hmem]

/-- Removing an agent from its current station preserves the capacity
invariant. -/
lemma capacityOK_removeFromCurrent (s : Stations) (a : AgentLoc) (h : capacityOK s) :
    capacityOK (removeFromCurrent s a) := by
  cases hcl : a.current_location with
  | none =>
    unfold removeFromCurrent
    rw [hcl, Option.elim_none]
    exact h
  | some loc =>
    cases hsl : s loc with
    | none =>
      unfold removeFromCurrent
      rw [hcl, Option.elim_some, hsl, Option.elim_none]
      exact h
    | some cur =>
      by_cases hmem : a.id ∈ cur.current_agents
      · intro l
        rw [removeFromCurrent_apply s a loc cur hcl hsl hmem l]
        by_cases hl : l = loc
        · have hOK := h loc
          rw [hsl] at hOK
          simp only [stationOK] at hOK
          rw [if_pos hl]
          simp only [stationOK]
          exact le_trans (Finset.card_erase_le) hOK
        · rw [if_neg hl]
          exact h l
      · unfold removeFromCurrent
        rw [hcl, Option.elim_some, hsl, Option.elim_some, if_neg hmem]
        exact h

/-- Moving an agent preserves the capacity invariant: the target station is
only written when it is not full. -/
lemma capacityOK_moveAgentToStation (s : Stations) (a : AgentLoc) (t : KitchenLocation)
    (h : capacityOK s) : capacityOK (moveAgentToStation s a t).1 := by
  have h1 := capacityOK_removeFromCurrent s a h
  unfold moveAgentToStation
  cases hst : removeFromCurrent s a t with
  | none =>
    rw [Option.elim_none]
    exact h1
  | some tgt =>
    rw [Option.elim_some]
    by_cases hfull : tgt.isFull
    · rw [if_pos hfull]
      exact h1
    · rw [if_neg hfull]
      intro l
      by_cases hl : l = t
      · have hOK := h1 t
        rw [hst] at hOK
        simp only [stationOK] at hOK
        simp only [if_pos hl, stationOK]
        have hlt : tgt.current_agents.card < tgt.max_capacity := by
          simp only [KitchenStation.isFull, decide_eq_true_eq] at hfull
          omega
        exact le_trans (Finset.card_insert_le _ _) hlt
      · simp only [if_neg hl]
        exact h1 l

/-- Each occupancy-mutating engine operation preserves the capacity
invariant. -/
lemma capacityOK_applyOp (s : Stations) (op : KitchenOp) (h : capacityOK s) :
    capacityOK (applyOp s op) := by
  cases op with
  | move a t => exact capacityOK_moveAgentToStation s a t h
  | reset c tp =>
    intro l
    simp only [applyOp, resetKitchenStations]
    cases s l <;> simp [stationOK]

/-- The capacity invariant is preserved along any sequence of engine
operations. -/
lemma capacityOK_foldl (ops : List KitchenOp) (s : Stations) (h : capacityOK s) :
    capacityOK (ops.foldl applyOp s) := by
  induction ops generalizing s with
  | nil => exact h
  | cons op ops ih => exact ih (applyOp s op) (capacityOK_applyOp s op h)

/-!
Claim C5.  Capacity invariant of the kitchen: occupant sets are mutated only
by `_move_agent_to_station` (guarded by `is_full`) and `reset_kitchen`
(which clears them), so every reachable state keeps every station's occupant
count within its capacity, and a move to a full station writes nothing to
that station.
-/

/-- C5: in every kitchen state reachable from the initialized stations by
agent moves and resets, every station's occupant count is at most its
capacity; and a move whose target station is already full leaves the target
station untouched (the placement is rejected, no occupant is added). -/
theorem station_capacity_invariant (cond etemp : KitchenLocation → ℕ → ℚ)
    (ops : List KitchenOp) :
    capacityOK (ops.foldl applyOp (initialStations cond etemp)) ∧
    ∀ (s : Stations) (a : AgentLoc) (t : KitchenLocation) (tgt : KitchenStation),
      removeFromCurrent s a t = some tgt → tgt.isFull = true →
      (moveAgentToStation s a t).1 t = some tgt := by
  constructor
  · exact capacityOK_foldl ops _ (capacityOK_initialStations cond etemp)
  · intro s a t tgt h1 h2
    unfold moveAgentToStation
    rw [h1, Option.elim_some, if_pos h2]
    exact h1

/-- A constant random source for concrete witness states. -/
def constQ : KitchenLocation → ℕ → ℚ := fun _ _ => 1

/-- The initialized demo kitchen. -/
def demoStations : Stations := initialStations constQ constQ

/-- The demo kitchen after agent 2 moves to the (capacity-1) expedite
station, filling it. -/
def demoFull : Stations :=
  (moveAgentToStation demoStations ⟨2, none⟩ KitchenLocation.expedite).1

/-- The full expedite station of `demoFull`, written out. -/
def expediteFull : KitchenStation :=
  { name := "Expedite Station"
    location := KitchenLocation.expedite
    equipment :=
      [{ name := "heat_lamps", location := KitchenLocation.expedite, condition := 1 },
       { name := "plating_station", location := KitchenLocation.expedite, condition := 1 },
       { name := "garnish_station", location := KitchenLocation.expedite, condition := 1 }]
    max_capacity := 1
    current_agents := {2}
    cleanliness := 1
    temperature := 20 }

/-- C5 witness: after one concrete move the invariant holds, and a second
agent's move toward the now-full expedite station leaves that station
unchanged. -/
theorem station_capacity_invariant_witness :
    capacityOK ([KitchenOp.move ⟨2, none⟩ KitchenLocation.expedite].foldl applyOp
      (initialStations constQ constQ)) ∧
    (moveAgentToStation demoFull ⟨1, none⟩ KitchenLocation.expedite).1
      KitchenLocation.expedite = some expediteFull := by
  obtain ⟨h1, h2⟩ := station_capacity_invariant constQ constQ
    [KitchenOp.move ⟨2, none⟩ KitchenLocation.expedite]
  exact ⟨h1, h2 demoFull ⟨1, none⟩ KitchenLocation.expedite expediteFull
    (by decide) (by decide)⟩

/-!
Claim C9.  In `_move_agent_to_station`, the removal from the current station
is unconditional while the insertion into the target is guarded by
`is_full`, and `agent.current_location` is updated only on successful
insertion: a move toward a full station therefore leaves the agent's
recorded location pointing at a station that no longer contains it.
-/

/-- C9: moving an agent toward a distinct, already-full target station
removes it from its current station's occupant set, adds it to no station,
and leaves its recorded location unchanged — afterwards the recorded
location names a station whose occupant set no longer contains the agent. -/
theorem move_to_full_station_orphans_agent (s : Stations) (a : AgentLoc)
    (loc t : KitchenLocation) (cur tgt : KitchenStation)
    (hloc : a.current_location = some loc)
    (hs : s loc = some cur)
    (hmem : a.id ∈ cur.current_agents)
    (hne : loc ≠ t)
    (hst : s t = some tgt)
    (hfull : tgt.isFull = true) :
    (moveAgentToStation s a t).2.current_location = some loc ∧
    (moveAgentToStation s a t).1 loc =
      some { cur with current_agents := cur.current_agents.erase a.id } ∧
    a.id ∉ cur.current_agents.erase a.id := by
  have hremt : removeFromCurrent s a t = some tgt := by
    rw [removeFromCurrent_apply s a loc cur hloc hs hmem t, if_neg (Ne.symm hne)]
    exact hst
  have hmove : moveAgentToStation s a t = (removeFromCurrent s a, a) := by
    unfold moveAgentToStation
    rw [hremt, Option.elim_some, if_pos hfull]
  refine ⟨?_, ?_, Finset.not_mem_erase a.id cur.current_agents⟩
  · rw [hmove]
    exact hloc
  · rw [hmove]
    show removeFromCurrent s a loc = _
    rw [removeFromCurrent_apply s a loc cur hloc hs hmem loc, if_pos rfl]

/-- The demo kitchen after agent 2 fills expedite and agent 3 moves to the
prep station. -/
def demoTwo : Stations :=
  (moveAgentToStation demoFull ⟨3, none⟩ KitchenLocation.prep).1

/-- The prep station of `demoTwo`, written out. -/
def prepWithAgent : KitchenStation :=
  { name := "Prep Station"
    location := KitchenLocation.prep
    equipment :=
      [{ name := "cutting_board", location := KitchenLocation.prep, condition := 1 },
       { name := "prep_knives", location := KitchenLocation.prep, condition := 1 },
       { name := "food_processor", location := KitchenLocation.prep, condition := 1 }]
    max_capacity := 3
    current_agents := {3}
    cleanliness := 1
    temperature := 20 }

/-- C9 witness: agent 3 stands at prep; moving it toward the full expedite
station leaves its recorded location at prep while prep's occupant set no
longer contains it. -/
theorem move_to_full_station_orphans_agent_witness :
    (moveAgentToStation demoTwo ⟨3, some KitchenLocation.prep⟩
        KitchenLocation.expedite).2.current_location = some KitchenLocation.prep ∧
    (moveAgentToStation demoTwo ⟨3, some KitchenLocation.prep⟩
        KitchenLocation.expedite).1 KitchenLocation.prep =
      some { prepWithAgent with
        current_agents := prepWithAgent.current_agents.erase 3 } ∧
    (3 : ℕ) ∉ prepWithAgent.current_agents.erase 3 :=
  move_to_full_station_orphans_agent demoTwo ⟨3, some KitchenLocation.prep⟩
    KitchenLocation.prep KitchenLocation.expedite prepWithAgent expediteFull
    rfl (by decide) (by decide) (by decide) (by decide) (by decide)

/-- Conditions at rest, as constructed by `EnvironmentalConditions()`. -/
def condsInit : EnvironmentalConditions := {}

/-!
Claim C6.  `_update_environment` sets the operating mode as a step function
of the total occupant count, the rush multiplier in the rush branch, and the
noise level as `min(1.0, total_agents * 0.1)`.
-/

/-- C6: after an environment update the operating mode is the step function
of the total occupant count (0 → idle, 1-3 → prep, 4-6 → service, more than
6 → rush with rush multiplier `1 + 0.2 * (count - 6)`), and the noise level
is `0.1 * count` capped at 1. -/
theorem operating_mode_step_function (s : Stations) (c : EnvironmentalConditions) :
    (totalAgents s = 0 → (updateEnvironment s c).1 = KitchenState.idle) ∧
    (1 ≤ totalAgents s → totalAgents s ≤ 3 →
      (updateEnvironment s c).1 = KitchenState.prep) ∧
    (4 ≤ totalAgents s → totalAgents s ≤ 6 →
      (updateEnvironment s c).1 = KitchenState.service) ∧
    (6 < totalAgents s → (updateEnvironment s c).1 = KitchenState.rush ∧
      (updateEnvironment s c).2.rush_multiplier =
        1 + ((totalAgents s : ℚ) - 6) * (2/10)) ∧
    (updateEnvironment s c).2.noise_level = min 1 ((totalAgents s : ℚ) * (1/10)) := by
  refine ⟨?_, ?_, ?_, ?_, ?_⟩
  · intro h
    simp only [updateEnvironment]
    rw [if_pos h]
  · intro h1 h2
    simp only [updateEnvironment]
    rw [if_neg (by omega), if_pos h2]
  · intro h1 h2
    simp only [updateEnvironment]
    rw [if_neg (by omega), if_neg (by omega), if_pos h2]
  · intro h
    simp only [updateEnvironment]
    rw [if_neg (by omega), if_neg (by omega), if_neg (by omega)]
    exact ⟨rfl, rfl⟩
  · simp only [updateEnvironment]
    split_ifs <;> rfl

/-- A seven-occupant kitchen: three agents at prep, two at grill, two at
sauté. -/
def demoRush : Stations :=
  ([KitchenOp.move ⟨10, none⟩ KitchenLocation.prep,
    KitchenOp.move ⟨11, none⟩ KitchenLocation.prep,
    KitchenOp.move ⟨12, none⟩ KitchenLocation.prep,
    KitchenOp.move ⟨13, none⟩ KitchenLocation.grill,
    KitchenOp.move ⟨14, none⟩ KitchenLocation.grill,
    KitchenOp.move ⟨15, none⟩ KitchenLocation.saute,
    KitchenOp.move ⟨16, none⟩ KitchenLocation.saute]).foldl applyOp demoStations

/-- C6 witness: the empty kitchen updates to idle, and the seven-occupant
kitchen updates to rush with the linear rush multiplier. -/
theorem operating_mode_step_function_witness :
    (updateEnvironment demoStations condsInit).1 = KitchenState.idle ∧
    ((updateEnvironment demoRush condsInit).1 = KitchenState.rush ∧
      (updateEnvironment demoRush condsInit).2.rush_multiplier =
        1 + ((totalAgents demoRush : ℚ) - 6) * (2/10)) :=
  ⟨(operating_mode_step_function demoStations condsInit).1 (by decide),
   (operating_mode_step_function demoRush condsInit).2.2.2.1 (by decide)⟩

/-!
Claim C7.  The claim says all five environment fields (temperature,
humidity, noise, rush multiplier, time pressure) are recomputed each tick
purely from occupancy and equipment in-use status, regardless of their prior
values.  In `_update_environment`, temperature, humidity and noise are; but
`rush_multiplier` is only assigned in the rush branch (it retains its prior
value whenever the occupant count is at most 6), and `time_pressure` is
never recomputed at all.
-/

/-- C7 counterexample: two kitchen states with identical (empty) occupancy
and identical equipment in-use status, differing only in the prior rush
multiplier, still differ in the rush multiplier after the tick — the field
is not recomputed from occupancy. -/
theorem tick_not_pure_counterexample :
    (updateEnvironment demoStations { rush_multiplier := 2 }).2.rush_multiplier ≠
      (updateEnvironment demoStations condsInit).2.rush_multiplier := by
  have h0 : totalAgents demoStations = 0 := by decide
  simp only [updateEnvironment, h0, if_pos rfl]
  norm_num [condsInit]

/-- The projection of a station the environment update depends on: its
occupant set and, per piece of equipment, its name and in-use truthiness. -/
def stationView (o : Option KitchenStation) :
    Option (Finset ℕ × List (String × Bool)) :=
  o.map fun st =>
    (st.current_agents, st.equipment.map fun e => (e.name, optTruthy e.in_use_by))

/-- `isHeatSource` seen through the station view. -/
def heatPair : String × Bool → Bool := fun p =>
  p.2 && (strContainsSub p.1 "oven" || strContainsSub p.1 "grill")

/-- `isSteamSource` seen through the station view. -/
def steamPair : String × Bool → Bool := fun p =>
  p.2 && (strContainsSub p.1 "burner" || strContainsSub p.1 "pot")

/-- Counting through a projection only depends on the projected list. -/
lemma countP_eq_of_view_eq (p : String × Bool → Bool) (l1 l2 : List Equipment)
    (h : (l1.map fun e => (e.name, optTruthy e.in_use_by)) =
         (l2.map fun e => (e.name, optTruthy e.in_use_by))) :
    (l1.countP fun e => p (e.name, optTruthy e.in_use_by)) =
      (l2.countP fun e => p (e.name, optTruthy e.in_use_by)) := by
  have key : ∀ (l : List Equipment),
      (l.countP fun e => p (e.name, optTruthy e.in_use_by)) =
        (l.map fun e => (e.name, optTruthy e.in_use_by)).countP p := by
    intro l
    rw [List.countP_map]
    rfl
  rw [key, key, h]

/-- Equal station views give equal per-location occupant counts. -/
lemma locAgents_eq_of_view (s1 s2 : Stations)
    (h : ∀ l, stationView (s1 l) = stationView (s2 l)) (l : KitchenLocation) :
    locAgents s1 l = locAgents s2 l := by
  have hl := h l
  unfold stationView at hl
  unfold locAgents
  cases h1 : s1 l with
  | none =>
    cases h2 : s2 l with
    | none => rfl
    | some st2 => rw [h1, h2] at hl; simp at hl
  | some st1 =>
    cases h2 : s2 l with
    | none => rw [h1, h2] at hl; simp at hl
    | some st2 =>
      rw [h1, h2] at hl
      simp only [Option.map_some', Option.some.injEq, Prod.mk.injEq] at hl
      simp only [Option.elim_some, hl.1]

/-- Equal station views give equal per-location heat-source counts. -/
lemma locHeat_eq_of_view (s1 s2 : Stations)
    (h : ∀ l, stationView (s1 l) = stationView (s2 l)) (l : KitchenLocation) :
    locHeat s1 l = locHeat s2 l := by
  have hl := h l
  unfold stationView at hl
  unfold locHeat
  cases h1 : s1 l with
  | none =>
    cases h2 : s2 l with
    | none => rfl
    | some st2 => rw [h1, h2] at hl; simp at hl
  | some st1 =>
    cases h2 : s2 l with
    | none => rw [h1, h2] at hl; simp at hl
    | some st2 =>
      rw [h1, h2] at hl
      simp only [Option.map_some', Option.some.injEq, Prod.mk.injEq] at hl
      simp only [Option.elim_some]
      exact countP_eq_of_view_eq heatPair st1.equipment st2.equipment hl.2

/-- Equal station views give equal per-location steam-source counts. -/
lemma locSteam_eq_of_view (s1 s2 : Stations)
    (h : ∀ l, stationView (s1 l) = stationView (s2 l)) (l : KitchenLocation) :
    locSteam s1 l = locSteam s2 l := by
  have hl := h l
  unfold stationView at hl
  unfold locSteam
  cases h1 : s1 l with
  | none =>
    cases h2 : s2 l with
    | none => rfl
    | some st2 => rw [h1, h2] at hl; simp at hl
  | some st1 =>
    cases h2 : s2 l with
    | none => rw [h1, h2] at hl; simp at hl
    | some st2 =>
      rw [h1, h2] at hl
      simp only [Option.map_some', Option.some.injEq, Prod.mk.injEq] at hl
      simp only [Option.elim_some]
      exact countP_eq_of_view_eq steamPair st1.equipment st2.equipment hl.2

/-- C7 amended: temperature, humidity, noise level and the operating mode
are recomputed on every tick purely from occupancy and equipment in-use
status (equal for any two states with equal station views, regardless of
prior conditions); the rush multiplier is so recomputed only when the total
occupant count exceeds 6; and the time-pressure factor is not recomputed by
the tick at all — it keeps its prior value. -/
theorem tick_derived_fields_pure (s1 s2 : Stations) (c1 c2 : EnvironmentalConditions)
    (h : ∀ l, stationView (s1 l) = stationView (s2 l)) :
    (updateEnvironment s1 c1).1 = (updateEnvironment s2 c2).1 ∧
    (updateEnvironment s1 c1).2.temperature = (updateEnvironment s2 c2).2.temperature ∧
    (updateEnvironment s1 c1).2.humidity = (updateEnvironment s2 c2).2.humidity ∧
    (updateEnvironment s1 c1).2.noise_level = (updateEnvironment s2 c2).2.noise_level ∧
    (6 < totalAgents s1 →
      (updateEnvironment s1 c1).2.rush_multiplier =
        (updateEnvironment s2 c2).2.rush_multiplier) ∧
    (updateEnvironment s1 c1).2.time_pressure = c1.time_pressure := by
  have hA : totalAgents s1 = totalAgents s2 := by
    unfold totalAgents
    congr 1
    exact List.map_congr_left fun l _ => locAgents_eq_of_view s1 s2 h l
  have hH : activeHeatSources s1 = activeHeatSources s2 := by
    unfold activeHeatSources
    congr 1
    exact List.map_congr_left fun l _ => locHeat_eq_of_view s1 s2 h l
  have hS : steamSources s1 = steamSources s2 := by
    unfold steamSources
    congr 1
    exact List.map_congr_left fun l _ => locSteam_eq_of_view s1 s2 h l
  refine ⟨?_, ?_, ?_, ?_, ?_, ?_⟩
  · simp only [updateEnvironment, hA, hH, hS]
    split_ifs <;> rfl
  · simp only [updateEnvironment, hA, hH, hS]
    split_ifs <;> rfl
  · simp only [updateEnvironment, hA, hH, hS]
    split_ifs <;> rfl
  · simp only [updateEnvironment, hA, hH, hS]
    split_ifs <;> rfl
  · intro h6
    rw [hA] at h6
    simp only [updateEnvironment, hA, hH, hS]
    split_ifs <;> first | rfl | (exfalso; omega)
  · simp only [updateEnvironment]
    split_ifs <;> rfl

/-- C7 amended, witness: same station dictionary, different prior conditions
— the updated mode agrees and the time-pressure field keeps the first
state's prior value. -/
theorem tick_derived_fields_pure_witness :
    (updateEnvironment demoStations { rush_multiplier := 2 }).1 =
      (updateEnvironment demoStations condsInit).1 ∧
    (updateEnvironment demoStations { rush_multiplier := 2 }).2.time_pressure =
      ({ rush_multiplier := 2 } : EnvironmentalConditions).time_pressure :=
  ⟨(tick_derived_fields_pure demoStations demoStations
      { rush_multiplier := 2 } condsInit fun _ => rfl).1,
   (tick_derived_fields_pure demoStations demoStations
      { rush_multiplier := 2 } condsInit fun _ => rfl).2.2.2.2.2⟩

/-!
Claim C8.  `_handle_crisis_events` returns immediately after the resolution
roll while a crisis is active, and the trigger branch is guarded by the
SERVICE/RUSH mode test and by the absence of an active crisis.
-/

/-- C8: a new crisis is triggered on a tick only when the operating mode is
SERVICE or RUSH and no crisis is active; while a crisis is active the tick
either resolves it (clearing the flag and the kind) or leaves the conditions
unchanged — it never starts a second crisis. -/
theorem crisis_trigger_eligibility (st : KitchenState) (c : EnvironmentalConditions)
    (resolveRoll triggerRoll : Bool) (choice : Fin 5) :
    (c.crisis_active = false →
      (handleCrisisEvents st c resolveRoll triggerRoll choice).crisis_active = true →
      st = KitchenState.service ∨ st = KitchenState.rush) ∧
    (c.crisis_active = true →
      handleCrisisEvents st c resolveRoll triggerRoll choice =
        { c with crisis_active := false, crisis_type := none } ∨
      handleCrisisEvents st c resolveRoll triggerRoll choice = c) := by
  unfold handleCrisisEvents
  constructor
  · intro hc hafter
    rw [if_neg (by simp [hc])] at hafter
    by_cases hel : (st = KitchenState.service ∨ st = KitchenState.rush) ∧ triggerRoll = true
    · exact hel.1
    · rw [if_neg hel] at hafter
      rw [hc] at hafter
      exact absurd hafter (by simp)
  · intro hc
    rw [if_pos hc]
    by_cases hr : resolveRoll
    · left
      rw [if_pos hr]
    · right
      rw [if_neg hr]

/-- Conditions with an active large-order crisis. -/
def activeConds : EnvironmentalConditions :=
  { crisis_active := true, crisis_type := some "large_order" }

/-- C8 witness: a crisis triggered from the SERVICE mode is eligible, and a
tick on an active crisis either clears it or leaves it untouched. -/
theorem crisis_trigger_eligibility_witness :
    (KitchenState.service = KitchenState.service ∨
      KitchenState.service = KitchenState.rush) ∧
    (handleCrisisEvents KitchenState.prep activeConds true false 0 =
        { activeConds with crisis_active := false, crisis_type := none } ∨
      handleCrisisEvents KitchenState.prep activeConds true false 0 = activeConds) :=
  ⟨(crisis_trigger_eligibility KitchenState.service condsInit false true 0).1
      rfl (by decide),
   (crisis_trigger_eligibility KitchenState.prep activeConds true false 0).2 rfl⟩

end Escoffier
